import Mathlib

/-!
Shallow embedding of the japanese-car-vin-decoder repository's search-input
classification, engine-code resolution and parts-enrichment logic, together
with theorems checking the specification's claims against it.

Sources embedded:
  - `src/engine_search_enhanced.py` (class `EnhancedEngineVINDecoder`):
    `extract_engine_code`, `is_engine_code`, `search_by_engine_code`, `search`,
    and the static `engine_database` / `engine_parts_database` tables.
  - `src/enhanced_vin_decoder.py` (class `EnhancedJapaneseCarVINDecoder`):
    `validate_vin`, `get_enhanced_parts`, `get_basic_parts_fallback`, and the
    static `enhanced_parts_database` table.
  - `src/enhanced_web_with_engine_search.py`: Flask handlers
    `universal_search` (`POST /search`) and `api_engine_search`
    (`GET /api/engine/<engine_code>`).

Python dictionaries are modelled as insertion-ordered association lists
(`List (String × α)`) with first-match lookup, which matches CPython's
ordered-dict semantics for the literal tables in the source.  The regular
expressions used by `extract_engine_code` are fixed-shape patterns; each is
embedded as a matcher that reports the length of the (greedy) match starting
at the head of a character list, and `re.search`'s leftmost-match semantics
is embedded by scanning positions left to right.
-/

namespace VinDecoder

set_option synthInstance.maxSize 1024

/-- Whitespace recognised by Python's `str.strip()` for ASCII input. -/
def isSpaceChar (c : Char) : Bool :=
  c = ' ' || c = '\t' || c = '\n' || c = '\r' || c = '\x0b' || c = '\x0c'

/-- Python `str.strip()` on a character list: drop whitespace at both ends. -/
def pyStripL (l : List Char) : List Char :=
  ((l.dropWhile isSpaceChar).reverse.dropWhile isSpaceChar).reverse

/-- Python `str.strip()` on strings. -/
def pyStrip (s : String) : String := String.mk (pyStripL s.data)

/-- Python `str.upper()` on a character list (ASCII inputs). -/
def pyUpperL (l : List Char) : List Char := l.map Char.toUpper

/-- Python `str.upper()` on strings. -/
def pyUpper (s : String) : String := String.mk (pyUpperL s.data)

/-- First-match lookup in an insertion-ordered association list: Python
`dict.get` on the literal tables of the source. -/
def alookup {α : Type} : List (String × α) → String → Option α
  | [], _ => none
  | (k, v) :: rest, key => if k = key then some v else alookup rest key

/-- Matcher for the Honda-style patterns `r'(X\d\x7b2\x7d[A-Z]\d?)'` of
`extract_engine_code` (with `X` one of D, B, H, F, K): reports the length of
the greedy match starting at the head of the list, if any. -/
def hondaMatchAt (letter : Char) : List Char → Option Nat
  | c :: d1 :: d2 :: a :: rest =>
    if c = letter && d1.isDigit && d2.isDigit && a.isUpper then
      match rest with
      | d3 :: _ => if d3.isDigit then some 5 else some 4
      | [] => some 4
    else none
  | _ => none

/-- Matcher for the Toyota pattern `r'(\d[A-Z]\x7b2\x7d-[A-Z]\x7b2\x7d)'`
(e.g. `1ZZ-FE`). -/
def toyotaDashMatchAt : List Char → Option Nat
  | d :: a1 :: a2 :: h :: b1 :: b2 :: _ =>
    if d.isDigit && a1.isUpper && a2.isUpper && h = '-' && b1.isUpper && b2.isUpper then
      some 6
    else none
  | _ => none

/-- Matcher for the Toyota pattern `r'(\d[A-Z]\x7b2\x7dFE)'` (e.g. `1ZZFE`). -/
def toyotaFeMatchAt : List Char → Option Nat
  | d :: a1 :: a2 :: f :: e :: _ =>
    if d.isDigit && a1.isUpper && a2.isUpper && f = 'F' && e = 'E' then
      some 5
    else none
  | _ => none

/-- Python `re.search` for the fixed-shape patterns above: scan positions left
to right and return the characters of the first (leftmost) match. -/
def reSearch (matchAt : List Char → Option Nat) : List Char → Option (List Char)
  | [] => none
  | c :: cs =>
    match matchAt (c :: cs) with
    | some n => some ((c :: cs).take n)
    | none => reSearch matchAt cs

/-- The pattern list `all_patterns = honda_patterns + toyota_patterns` of
`extract_engine_code`, in source order. -/
def allPatterns : List (List Char → Option Nat) :=
  [hondaMatchAt 'D', hondaMatchAt 'B', hondaMatchAt 'H', hondaMatchAt 'F',
   hondaMatchAt 'K', toyotaDashMatchAt, toyotaFeMatchAt]

/-- The `for pattern in all_patterns` loop of `extract_engine_code`: return the
leftmost match of the first pattern that matches anywhere. -/
def tryPatterns : List (List Char → Option Nat) → List Char → Option (List Char)
  | [], _ => none
  | p :: ps, l =>
    match reSearch p l with
    | some m => some m
    | none => tryPatterns ps l

/-- Engine-specific information: the `EngineInfo` dataclass of
`engine_search_enhanced.py`.  `common_vehicles` is a list of string-keyed
dictionaries, embedded as association lists. -/
structure EngineInfo where
  engine_code : String
  displacement : String
  type_ : String
  fuel_system : String
  valves_per_cylinder : Nat
  compression_ratio : String
  max_power : String
  max_torque : String
  fuel_type : String
  common_vehicles : List (List (String × String))
deriving Repr, DecidableEq

/-- Entry `'D16W7'` of `engine_database`. -/
def d16w7Info : EngineInfo :=
  { engine_code := "D16W7", displacement := "1.6L (1590cc)", type_ := "SOHC VTEC",
    fuel_system := "PGM-FI Multipoint", valves_per_cylinder := 4,
    compression_ratio := "9.6:1", max_power := "127 hp @ 6600 rpm",
    max_torque := "107 lb-ft @ 5500 rpm", fuel_type := "Gasoline",
    common_vehicles :=
      [[("make", "Honda"), ("model", "Civic"), ("years", "2001-2005")],
       [("make", "Honda"), ("model", "Civic Si"), ("years", "2002-2005")]] }

/-- Entry `'D17A1'` of `engine_database`. -/
def d17a1Info : EngineInfo :=
  { engine_code := "D17A1", displacement := "1.7L (1668cc)", type_ := "SOHC VTEC",
    fuel_system := "PGM-FI Multipoint", valves_per_cylinder := 4,
    compression_ratio := "9.5:1", max_power := "115 hp @ 6100 rpm",
    max_torque := "110 lb-ft @ 4500 rpm", fuel_type := "Gasoline",
    common_vehicles :=
      [[("make", "Honda"), ("model", "Civic"), ("years", "2001-2005")],
       [("make", "Honda"), ("model", "Civic Hybrid"), ("years", "2003-2005")]] }

/-- Entry `'D16Y8'` of `engine_database`. -/
def d16y8Info : EngineInfo :=
  { engine_code := "D16Y8", displacement := "1.6L (1590cc)", type_ := "SOHC VTEC",
    fuel_system := "PGM-FI Multipoint", valves_per_cylinder := 4,
    compression_ratio := "9.6:1", max_power := "127 hp @ 6600 rpm",
    max_torque := "107 lb-ft @ 5500 rpm", fuel_type := "Gasoline",
    common_vehicles :=
      [[("make", "Honda"), ("model", "Civic"), ("years", "1996-2000")],
       [("make", "Honda"), ("model", "Civic Si"), ("years", "1999-2000")]] }

/-- Entry `'1ZZ-FE'` of `engine_database`. -/
def zz1feInfo : EngineInfo :=
  { engine_code := "1ZZ-FE", displacement := "1.8L (1794cc)", type_ := "DOHC VVT-i",
    fuel_system := "Electronic Fuel Injection", valves_per_cylinder := 4,
    compression_ratio := "10.0:1", max_power := "130 hp @ 6400 rpm",
    max_torque := "125 lb-ft @ 4200 rpm", fuel_type := "Gasoline",
    common_vehicles :=
      [[("make", "Toyota"), ("model", "Corolla"), ("years", "2000-2008")],
       [("make", "Toyota"), ("model", "Camry"), ("years", "2000-2008")]] }

/-- Entry `'2AZ-FE'` of `engine_database`. -/
def az2feInfo : EngineInfo :=
  { engine_code := "2AZ-FE", displacement := "2.4L (2362cc)", type_ := "DOHC VVT-i",
    fuel_system := "Electronic Fuel Injection", valves_per_cylinder := 4,
    compression_ratio := "9.6:1", max_power := "160 hp @ 5600 rpm",
    max_torque := "162 lb-ft @ 4000 rpm", fuel_type := "Gasoline",
    common_vehicles :=
      [[("make", "Toyota"), ("model", "Camry"), ("years", "2002-2011")],
       [("make", "Toyota"), ("model", "RAV4"), ("years", "2006-2012")]] }

/-- The static `self.engine_database` of `EnhancedEngineVINDecoder.__init__`,
in insertion order. -/
def engine_database : List (String × EngineInfo) :=
  [("D16W7", d16w7Info), ("D17A1", d17a1Info), ("D16Y8", d16y8Info),
   ("1ZZ-FE", zz1feInfo), ("2AZ-FE", az2feInfo)]

/-- Detailed part information: the `PartInformation` dataclass of
`enhanced_vin_decoder.py`.  Fields with Python default `None` are `Option`;
string fields default to the empty string as in the dataclass. -/
structure PartInformation where
  part_name : String
  part_number : String := ""
  brand : String := ""
  price_range : String := ""
  compatibility_notes : String := ""
  specifications : Option (List (String × String)) := none
  alternatives : Option (List String) := none
  maintenance_interval : String := ""
deriving Repr, DecidableEq

/-- Category `'engine_parts'` of `engine_parts_database['D16W7']`. -/
def d16w7EngineParts : List (String × PartInformation) :=
  [("air_filter",
    { part_name := "Air Filter", part_number := "17220-P2A-000", brand := "Honda OEM",
      price_range := "$12-22",
      compatibility_notes := "Fits 2001-2005 Honda Civic with D16W7 engine",
      specifications := some [("filter_type", "Paper"), ("dimensions", "7.8\" x 6.1\" x 1.2\"")],
      alternatives := some ["Fram CA10467", "K&N 33-2276", "Mann C 2275"],
      maintenance_interval := "Every 12,000 miles" }),
   ("oil_filter",
    { part_name := "Oil Filter", part_number := "15400-PLM-A02", brand := "Honda OEM",
      price_range := "$6-12",
      compatibility_notes := "Fits Honda D16W7 engine",
      specifications := some [("filter_type", "Cartridge"), ("thread_size", "M20 x 1.5")],
      alternatives := some ["Fram PH3980", "Mobil 1 M1-110", "K&N HP-1008"],
      maintenance_interval := "Every 5,000 miles" }),
   ("spark_plugs",
    { part_name := "Spark Plugs", part_number := "98079-55846", brand := "Honda OEM (NGK)",
      price_range := "$6-10 each",
      compatibility_notes := "Iridium spark plugs for D16W7 VTEC engine",
      specifications := some [("gap", "0.039-0.043\""), ("heat_range", "6"), ("thread_size", "14mm")],
      alternatives := some ["NGK ZFR6F-11", "Denso IK20", "Champion RE14MCC4"],
      maintenance_interval := "Every 60,000 miles" }),
   ("timing_belt",
    { part_name := "Timing Belt", part_number := "14400-P2A-004", brand := "Honda OEM",
      price_range := "$45-85",
      compatibility_notes := "Timing belt for D16W7 SOHC VTEC",
      specifications := some [("length", "102 teeth"), ("width", "25mm")],
      alternatives := some ["Gates T297", "Dayco 95297", "Continental 40297"],
      maintenance_interval := "Every 105,000 miles" }),
   ("water_pump",
    { part_name := "Water Pump", part_number := "19200-P2A-003", brand := "Honda OEM",
      price_range := "$65-120",
      compatibility_notes := "Water pump for Honda D16W7 engine",
      specifications := some [("outlet_diameter", "38mm"), ("impeller_type", "Centrifugal")],
      alternatives := some ["GMB GWH-43A", "Aisin WPH-043", "Beck Arnley 131-2243"],
      maintenance_interval := "Every 105,000 miles (with timing belt)" }),
   ("vtec_solenoid",
    { part_name := "VTEC Solenoid Valve", part_number := "15810-P2A-A01", brand := "Honda OEM",
      price_range := "$85-150",
      compatibility_notes := "VTEC solenoid valve for D16W7 engine",
      specifications := some [("voltage", "12V"), ("resistance", "14-30 ohms")],
      alternatives := some ["Standard VS63", "Wells SU4086", "Beck Arnley 028-0238"],
      maintenance_interval := "Replace if faulty" })]

/-- Category `'brake_parts'` of `engine_parts_database['D16W7']`. -/
def d16w7BrakeParts : List (String × PartInformation) :=
  [("brake_pads_front",
    { part_name := "Front Brake Pads", part_number := "45022-S5A-E50", brand := "Honda OEM",
      price_range := "$35-65",
      compatibility_notes := "Ceramic brake pads for 2001-2005 Civic",
      specifications := some [("pad_type", "Ceramic"), ("thickness", "10mm")],
      alternatives := some ["Akebono ACT787", "Wagner ThermoQuiet QC787", "RayBestos SGD787C"],
      maintenance_interval := "Every 25,000-40,000 miles" }),
   ("brake_rotors_front",
    { part_name := "Front Brake Rotors", part_number := "45251-S5A-A10", brand := "Honda OEM",
      price_range := "$55-95 each",
      compatibility_notes := "Vented rotors for Honda Civic",
      specifications := some [("diameter", "262mm"), ("thickness", "22mm")],
      alternatives := some ["Centric 121.40047", "RayBestos 96954R", "Wagner BD125508"],
      maintenance_interval := "Every 50,000-70,000 miles" })]

/-- Category `'maintenance_parts'` of `engine_parts_database['D16W7']`. -/
def d16w7MaintenanceParts : List (String × PartInformation) :=
  [("coolant",
    { part_name := "Engine Coolant", part_number := "08CLA-P99-08ZA", brand := "Honda OEM",
      price_range := "$12-18 per gallon",
      compatibility_notes := "Honda Long Life Coolant for D16W7",
      specifications := some [("type", "Ethylene Glycol"), ("color", "Blue/Green")],
      alternatives := some ["Prestone Honda/Acura", "Zerex Asian Blue", "Peak Final Charge"],
      maintenance_interval := "Every 60,000 miles" })]

/-- The static `self.engine_parts_database` of
`EnhancedEngineVINDecoder.__init__`: engine code to category to part key to
part record. -/
def engine_parts_database : List (String × List (String × List (String × PartInformation))) :=
  [("D16W7",
    [("engine_parts", d16w7EngineParts),
     ("brake_parts", d16w7BrakeParts),
     ("maintenance_parts", d16w7MaintenanceParts)])]

/-- Uppercase and strip the raw input, as the first statement of
`extract_engine_code` does (`engine_input.strip().upper()`). -/
def cleanInput (s : String) : List Char := pyUpperL (pyStripL s.data)

/-- `EnhancedEngineVINDecoder.extract_engine_code`, parameterized by the
engine table it reads (`self.engine_database`): try the patterns in source
order; if none matches, return the cleaned input when it is a verbatim table
key, else no match. -/
def extract_engine_code_db (edb : List (String × EngineInfo)) (engine_input : String) :
    Option String :=
  let ei := cleanInput engine_input
  match tryPatterns allPatterns ei with
  | some m => some (String.mk m)
  | none =>
    if (alookup edb (String.mk ei)).isSome then some (String.mk ei) else none

/-- `EnhancedEngineVINDecoder.extract_engine_code` on the static tables. -/
def extract_engine_code (engine_input : String) : Option String :=
  extract_engine_code_db engine_database engine_input

/-- `EnhancedEngineVINDecoder.is_engine_code`: strip, treat length 17 as a
VIN (never an engine code), otherwise ask the extractor. -/
def is_engine_code (input_string : String) : Bool :=
  let t := pyStripL input_string.data
  if t.length = 17 then false
  else (extract_engine_code (String.mk t)).isSome

/-- The `engine_info` sub-dictionary built by `search_by_engine_code`: the
`EngineInfo` fields minus `engine_code`, with `type_` exposed as `type`. -/
structure EngineInfoView where
  displacement : String
  type : String
  fuel_system : String
  valves_per_cylinder : Nat
  compression_ratio : String
  max_power : String
  max_torque : String
  fuel_type : String
  common_vehicles : List (List (String × String))
deriving Repr, DecidableEq

/-- Build the `engine_info` sub-dictionary from an `EngineInfo` record. -/
def mkEngineInfoView (e : EngineInfo) : EngineInfoView :=
  { displacement := e.displacement, type := e.type_, fuel_system := e.fuel_system,
    valves_per_cylinder := e.valves_per_cylinder, compression_ratio := e.compression_ratio,
    max_power := e.max_power, max_torque := e.max_torque, fuel_type := e.fuel_type,
    common_vehicles := e.common_vehicles }

/-- The result dictionary of `search_by_engine_code`. -/
structure EngineSearchResult where
  search_type : String
  engine_code : String
  engine_info : EngineInfoView
  parts_compatibility : List (String × List (String × PartInformation))
  total_parts : Nat
  parts_categories : List String
deriving Repr, DecidableEq

/-- `sum(len(category) for category in parts_data.values())`. -/
def sumCategoryLengths (parts : List (String × List (String × PartInformation))) : Nat :=
  (parts.map (fun c => c.2.length)).foldl Nat.add 0

/-- `EnhancedEngineVINDecoder.search_by_engine_code`, parameterized by the
two tables it reads: extract the code, look up the engine table (miss returns
`None`), look up the parts table with default `\x7b\x7d`, and assemble the
result dictionary. -/
def search_by_engine_code_db (edb : List (String × EngineInfo))
    (pdb : List (String × List (String × List (String × PartInformation))))
    (engine_input : String) : Option EngineSearchResult :=
  match extract_engine_code_db edb engine_input with
  | none => none
  | some engine_code =>
    match alookup edb (pyUpper engine_code) with
    | none => none
    | some engine_info =>
      let parts_data := (alookup pdb (pyUpper engine_code)).getD []
      some { search_type := "engine_code",
             engine_code := pyUpper engine_code,
             engine_info := mkEngineInfoView engine_info,
             parts_compatibility := parts_data,
             total_parts := sumCategoryLengths parts_data,
             parts_categories := parts_data.map Prod.fst }

/-- `EnhancedEngineVINDecoder.search_by_engine_code` on the static tables. -/
def search_by_engine_code (engine_input : String) : Option EngineSearchResult :=
  search_by_engine_code_db engine_database engine_parts_database engine_input

/-- A category's worth of parts in `enhanced_vin_decoder.py`: the detailed
database stores a part-key to `PartInformation` dictionary, while the basic
fallback stores a plain list of `PartInformation`. -/
inductive PartsGroup where
  | keyed : List (String × PartInformation) → PartsGroup
  | listed : List PartInformation → PartsGroup
deriving Repr, DecidableEq

/-- Category `'engine_parts'` of `enhanced_parts_database['TOYOTA']['CAMRY']['2005']`. -/
def camry2005EngineParts : List (String × PartInformation) :=
  [("air_filter",
    { part_name := "Air Filter", part_number := "17801-0P010", brand := "Toyota OEM",
      price_range := "$15-25",
      compatibility_notes := "Fits 2005 Camry with 1ZZ-FE engine",
      specifications := some [("filter_type", "Paper"), ("dimensions", "8.5\" x 7.5\" x 1.5\"")],
      alternatives := some ["Fram CA10123", "K&N 33-2304", "Mann C 25 111"],
      maintenance_interval := "Every 15,000 miles" }),
   ("oil_filter",
    { part_name := "Oil Filter", part_number := "90915-YZZJ1", brand := "Toyota OEM",
      price_range := "$8-15",
      compatibility_notes := "Fits 2005 Camry 1ZZ-FE engine",
      specifications := some [("filter_type", "Spin-on"), ("thread_size", "3/4-16")],
      alternatives := some ["Fram PH4967", "Mobil 1 M1-104", "K&N HP-1004"],
      maintenance_interval := "Every 5,000 miles" }),
   ("spark_plugs",
    { part_name := "Spark Plugs", part_number := "90919-01237", brand := "Toyota OEM",
      price_range := "$8-12 each",
      compatibility_notes := "Iridium spark plugs for 1ZZ-FE engine",
      specifications := some [("gap", "0.044\""), ("heat_range", "5"), ("thread_size", "14mm")],
      alternatives := some ["NGK IFR5T11", "Denso IKH16", "Bosch 4418"],
      maintenance_interval := "Every 60,000 miles" }),
   ("timing_belt",
    { part_name := "Timing Belt Kit", part_number := "13568-0F010", brand := "Toyota OEM",
      price_range := "$150-250",
      compatibility_notes := "Complete timing belt kit with tensioner and water pump",
      specifications := some [("belt_length", "95 teeth"), ("width", "25mm")],
      alternatives := some ["Gates TCKWP328", "Aisin TKT-021", "Continental 56098"],
      maintenance_interval := "Every 90,000 miles" })]

/-- Category `'brake_parts'` of `enhanced_parts_database['TOYOTA']['CAMRY']['2005']`. -/
def camry2005BrakeParts : List (String × PartInformation) :=
  [("brake_pads_front",
    { part_name := "Front Brake Pads", part_number := "04465-0F010", brand := "Toyota OEM",
      price_range := "$45-80",
      compatibility_notes := "Ceramic brake pads for front wheels",
      specifications := some [("pad_type", "Ceramic"), ("thickness", "12mm")],
      alternatives := some ["Akebono ACT1234", "Wagner ThermoQuiet QC1234", "RayBestos SGD1234"],
      maintenance_interval := "Every 30,000-50,000 miles" }),
   ("brake_rotors_front",
    { part_name := "Front Brake Rotors", part_number := "43512-0F010", brand := "Toyota OEM",
      price_range := "$80-150 each",
      compatibility_notes := "Vented rotors for front wheels",
      specifications := some [("diameter", "296mm"), ("thickness", "28mm")],
      alternatives := some ["Centric 120.34001", "RayBestos 980123", "Wagner BD1234"],
      maintenance_interval := "Every 60,000-80,000 miles" })]

/-- Category `'suspension_parts'` of `enhanced_parts_database['TOYOTA']['CAMRY']['2005']`. -/
def camry2005SuspensionParts : List (String × PartInformation) :=
  [("shock_absorbers_front",
    { part_name := "Front Shock Absorbers", part_number := "48510-0F010", brand := "Toyota OEM",
      price_range := "$120-200 each",
      compatibility_notes := "Gas-charged shock absorbers",
      specifications := some [("type", "Gas-charged"), ("travel", "150mm")],
      alternatives := some ["KYB 334123", "Monroe 1234", "Gabriel 1234"],
      maintenance_interval := "Every 80,000-100,000 miles" })]

/-- The catalog `enhanced_parts_database['TOYOTA']['CAMRY']['2005']`. -/
def camry2005Catalog : List (String × PartsGroup) :=
  [("engine_parts", .keyed camry2005EngineParts),
   ("brake_parts", .keyed camry2005BrakeParts),
   ("suspension_parts", .keyed camry2005SuspensionParts)]

/-- The catalog `enhanced_parts_database['HONDA']['CIVIC']['2005']`. -/
def civic2005Catalog : List (String × PartsGroup) :=
  [("engine_parts", .keyed
    [("air_filter",
      { part_name := "Air Filter", part_number := "17220-P2A-000", brand := "Honda OEM",
        price_range := "$12-20",
        compatibility_notes := "Fits 2005 Civic with D17A2 engine",
        specifications := some [("filter_type", "Paper"), ("dimensions", "8\" x 7\" x 1.25\"")],
        alternatives := some ["Fram CA10123", "K&N 33-2304"],
        maintenance_interval := "Every 15,000 miles" })])]

/-- The static `self.enhanced_parts_database` of
`EnhancedJapaneseCarVINDecoder.__init__`: make to model to year to catalog. -/
def enhanced_parts_database :
    List (String × List (String × List (String × List (String × PartsGroup)))) :=
  [("TOYOTA", [("CAMRY", [("2005", camry2005Catalog)])]),
   ("HONDA", [("CIVIC", [("2005", civic2005Catalog)])])]

/-- One character of the class `[A-HJ-NPR-Z0-9]` used by `validate_vin`. -/
def isVinChar (c : Char) : Bool :=
  ('A' ≤ c && c ≤ 'H') || ('J' ≤ c && c ≤ 'N') || c = 'P' || ('R' ≤ c && c ≤ 'Z') || c.isDigit

/-- Denotation of `re.match(r'^[A-HJ-NPR-Z0-9]\x7b17\x7d$', vin)`: exactly 17
characters, all in the class. -/
def vinRegexMatch (l : List Char) : Bool :=
  l.length = 17 && l.all isVinChar

/-- `EnhancedJapaneseCarVINDecoder.validate_vin`: reject empty or non-17
input, reject `I`/`O`/`Q`, then check the character-class pattern
(`not vin` on a string is emptiness, i.e. length zero). -/
def validate_vin (vin : String) : Bool :=
  if vin.data.length = 0 ∨ vin.data.length ≠ 17 then false
  else if ∃ c ∈ vin.data, c = 'I' ∨ c = 'O' ∨ c = 'Q' then false
  else if ¬ vinRegexMatch vin.data = true then false
  else true

/-- Three-level lookup
`self.enhanced_parts_database.get(make.upper(), \x7b\x7d).get(model.upper(), \x7b\x7d).get(year, \x7b\x7d)`
of `get_enhanced_parts`, parameterized by the database read. -/
def lookup3_db
    (db : List (String × List (String × List (String × List (String × PartsGroup)))))
    (make model year : String) : List (String × PartsGroup) :=
  match alookup db (pyUpper make) with
  | none => []
  | some byModel =>
    match alookup byModel (pyUpper model) with
    | none => []
    | some byYear =>
      match alookup byYear year with
      | none => []
      | some parts => parts

/-- Three-level lookup on the static database. -/
def lookup3 (make model year : String) : List (String × PartsGroup) :=
  lookup3_db enhanced_parts_database make model year

/-- `EnhancedJapaneseCarVINDecoder.get_basic_parts_fallback`: the generic
placeholder catalog with categories `engine` and `brakes`, every part number
`"Generic"`, brand `"Various"`, and compatibility notes interpolated as
`f"Fits \x7byear\x7d \x7bmake\x7d \x7bmodel\x7d"`.  The `engine` argument is
accepted and unused, as in the source. -/
def get_basic_parts_fallback (make model year engine : String) : List (String × PartsGroup) :=
  [("engine", .listed
     [{ part_name := "Air Filter", part_number := "Generic", brand := "Various",
        price_range := "$10-30",
        compatibility_notes := "Fits " ++ year ++ " " ++ make ++ " " ++ model,
        maintenance_interval := "Every 15,000 miles" },
      { part_name := "Oil Filter", part_number := "Generic", brand := "Various",
        price_range := "$5-20",
        compatibility_notes := "Fits " ++ year ++ " " ++ make ++ " " ++ model,
        maintenance_interval := "Every 5,000 miles" },
      { part_name := "Spark Plugs", part_number := "Generic", brand := "Various",
        price_range := "$5-15 each",
        compatibility_notes := "Fits " ++ year ++ " " ++ make ++ " " ++ model,
        maintenance_interval := "Every 60,000 miles" }]),
   ("brakes", .listed
     [{ part_name := "Brake Pads", part_number := "Generic", brand := "Various",
        price_range := "$30-100",
        compatibility_notes := "Fits " ++ year ++ " " ++ make ++ " " ++ model,
        maintenance_interval := "Every 30,000-50,000 miles" },
      { part_name := "Brake Rotors", part_number := "Generic", brand := "Various",
        price_range := "$50-150 each",
        compatibility_notes := "Fits " ++ year ++ " " ++ make ++ " " ++ model,
        maintenance_interval := "Every 60,000-80,000 miles" }])]

/-- `EnhancedJapaneseCarVINDecoder.get_enhanced_parts`, parameterized by the
database read: three-level lookup, generic fallback on an empty result
(`if not parts_data`). -/
def get_enhanced_parts_db
    (db : List (String × List (String × List (String × List (String × PartsGroup)))))
    (make model year engine : String) : List (String × PartsGroup) :=
  let parts_data := lookup3_db db make model year
  if parts_data.isEmpty then get_basic_parts_fallback make model year engine
  else parts_data

/-- `EnhancedJapaneseCarVINDecoder.get_enhanced_parts` on the static database. -/
def get_enhanced_parts (make model year engine : String) : List (String × PartsGroup) :=
  get_enhanced_parts_db enhanced_parts_database make model year engine

/-- `EnhancedJapaneseCarVINDecoder.decode_vin`, abstracted over everything
past validation: the method first runs `validate_vin` and returns `None` on
failure; the remainder (the NHTSA network call and the assembly of
`EnhancedVehicleInfo`) depends on the network and is abstracted as the
oracle `net`. -/
def decode_vin {α : Type} (net : String → Option α) (vin : String) : Option α :=
  if validate_vin vin then net vin else none

/-- The dictionary returned by `EnhancedEngineVINDecoder.search`: a `success`
flag plus the keys the two code paths populate (absent keys are `none`). -/
structure SearchResponse (α : Type) where
  success : Bool
  search_type : Option String := none
  engineData : Option EngineSearchResult := none
  vehicleData : Option α := none
  error : Option String := none
  suggestion : Option String := none

/-- `EnhancedEngineVINDecoder.search`: strip, route via `is_engine_code`,
and wrap the outcome of the selected resolver. -/
def search {α : Type} (net : String → Option α) (search_input : String) : SearchResponse α :=
  let t := pyStrip search_input
  if is_engine_code t then
    match search_by_engine_code t with
    | some result =>
      { success := true, search_type := some "engine_code", engineData := some result }
    | none =>
      { success := false,
        error := some ("Engine code not found: " ++ t),
        suggestion := some "Try: D16W7, D17A1, 1ZZ-FE, 2AZ-FE" }
  else
    match decode_vin net t with
    | some vehicle_info =>
      { success := true, search_type := some "vin", vehicleData := some vehicle_info }
    | none =>
      { success := false,
        error := some ("Could not decode VIN: " ++ t),
        suggestion := some "Ensure VIN is exactly 17 characters" }

/-- The Flask handler `universal_search` (`POST /search`) of
`enhanced_web_with_engine_search.py`, paired with its HTTP status: empty
stripped input and both search outcomes are served with status 200
(`jsonify` without an explicit status). -/
def universal_search {α : Type} (net : String → Option α) (raw : String) :
    SearchResponse α × Nat :=
  let search_input := pyStrip raw
  if search_input.data.isEmpty then
    ({ success := false, error := some "Search input is required" }, 200)
  else
    (search net search_input, 200)

/-- The JSON body of the Flask handler `api_engine_search`. -/
structure ApiEngineResponse where
  success : Bool
  engine_data : Option EngineSearchResult := none
  error : Option String := none
deriving Repr, DecidableEq

/-- The Flask handler `api_engine_search` (`GET /api/engine/<engine_code>`)
of `enhanced_web_with_engine_search.py`, paired with its HTTP status: a hit
is served with status 200, a miss with status 404. -/
def api_engine_search (engine_code : String) : ApiEngineResponse × Nat :=
  match search_by_engine_code engine_code with
  | some result => ({ success := true, engine_data := some result }, 200)
  | none =>
    ({ success := false, error := some ("Engine code not found: " ++ engine_code) }, 404)

/-- The mutable attributes of `EnhancedEngineVINDecoder` read by
`search_by_engine_code` (and `extract_engine_code`). -/
structure DecoderTables where
  engineDb : List (String × EngineInfo)
  enginePartsDb : List (String × List (String × List (String × PartInformation)))
deriving Repr, DecidableEq

/-- The tables as initialized by `EnhancedEngineVINDecoder.__init__`. -/
def initTables : DecoderTables :=
  { engineDb := engine_database, enginePartsDb := engine_parts_database }

/-- State-passing embedding of `search_by_engine_code`: the method body
contains no assignment to `self.engine_database` or
`self.engine_parts_database` (only reads), so the state is returned
unchanged. -/
def search_by_engine_codeT (st : DecoderTables) (engine_input : String) :
    Option EngineSearchResult × DecoderTables :=
  (search_by_engine_code_db st.engineDb st.enginePartsDb engine_input, st)

/-- The mutable attribute of `EnhancedJapaneseCarVINDecoder` read by
`get_enhanced_parts`. -/
structure VinDecoderTables where
  enhancedPartsDb : List (String × List (String × List (String × List (String × PartsGroup))))
deriving Repr, DecidableEq

/-- The table as initialized by `EnhancedJapaneseCarVINDecoder.__init__`. -/
def initVinTables : VinDecoderTables :=
  { enhancedPartsDb := enhanced_parts_database }

/-- State-passing embedding of `get_enhanced_parts`: the method body (and
`get_basic_parts_fallback`, which it may call) contains no assignment to
`self.enhanced_parts_database`, so the state is returned unchanged. -/
def get_enhanced_partsT (st : VinDecoderTables) (make model year engine : String) :
    List (String × PartsGroup) × VinDecoderTables :=
  (get_enhanced_parts_db st.enhancedPartsDb make model year engine, st)

/-- The part records held by a `PartsGroup`, whichever shape it has. -/
def groupParts : PartsGroup → List PartInformation
  | .keyed l => l.map Prod.snd
  | .listed l => l

/-- All part records of a catalog, across categories. -/
def catalogParts (cat : List (String × PartsGroup)) : List PartInformation :=
  (cat.map (fun c => groupParts c.2)).flatten

/-- Substring test on character lists (the Python `in` operator on strings). -/
def listContains (needle : List Char) : List Char → Bool
  | [] => needle.isEmpty
  | c :: t => needle.isPrefixOf (c :: t) || listContains needle t

/-- Substring test on strings. -/
def strContains (hay needle : String) : Bool := listContains needle.data hay.data

/-- A throwaway `EngineSearchResult` used as an `Option.getD` default when
restating results at concrete inputs. -/
def emptyEngineResult : EngineSearchResult :=
  { search_type := "", engine_code := "", engine_info := mkEngineInfoView d16w7Info,
    parts_compatibility := [], total_parts := 0, parts_categories := [] }

/-! Theorems.  Each claim of the specification gets one theorem below,
preceded by helper lemmas shared between them. -/

/-- Helper: `validate_vin` agrees with the denotation of its final regex,
because the length guard and the `I`/`O`/`Q` guard are both subsumed by the
character-class pattern. -/
theorem validate_vin_eq_regex (s : String) : validate_vin s = vinRegexMatch s.data := by
  unfold validate_vin
  split_ifs with h1 h2 h3
  · have hne : s.data.length ≠ 17 := by rcases h1 with h | h <;> omega
    unfold vinRegexMatch
    rw [decide_eq_false hne, Bool.false_and]
  · obtain ⟨c, hc, hor⟩ := h2
    have hv : isVinChar c = false := by rcases hor with rfl | rfl | rfl <;> decide
    have hall : s.data.all isVinChar = false := by
      rw [Bool.eq_false_iff]
      intro hcontra
      rw [List.all_eq_true] at hcontra
      have := hcontra c hc
      rw [hv] at this
      exact Bool.false_ne_true this
    unfold vinRegexMatch
    rw [hall, Bool.and_false]
  · exact h3.symm
  · cases hb : vinRegexMatch s.data with
    | false => rfl
    | true => exact absurd hb h3

/-- Helper: folding `Nat.add` from an accumulator is the accumulator plus the
list sum. -/
theorem foldl_add_eq_sum (l : List Nat) (a : Nat) : l.foldl Nat.add a = a + l.sum := by
  induction l generalizing a with
  | nil => simp
  | cons x xs ih =>
    rw [List.foldl_cons, List.sum_cons, ih]
    simp [Nat.add_eq]
    omega

/-- C1: for every input string whose trimmed length is exactly 17, the router
classifies it as a VIN: `is_engine_code` returns `false`, regardless of
whether any engine-code pattern would match; the length check comes first. -/
theorem c1_router_length17_is_vin (s : String) (h : (pyStripL s.data).length = 17) :
    is_engine_code s = false := by
  simp [is_engine_code, h]

/-- C1 witness: a 17-character input that even matches the Honda `D` engine
pattern is still classified as a VIN. -/
theorem c1_router_length17_is_vin_witness :
    (pyStripL "D16W7AAAAAAAAAAAA".data).length = 17 ∧
    (reSearch (hondaMatchAt 'D') (cleanInput "D16W7AAAAAAAAAAAA")).isSome = true ∧
    is_engine_code "D16W7AAAAAAAAAAAA" = false :=
  ⟨by decide, by decide, c1_router_length17_is_vin "D16W7AAAAAAAAAAAA" (by decide)⟩

/-- C3: `validate_vin` accepts exactly the strings of length 17 whose
characters all lie in `[A-HJ-NPR-Z0-9]`; in particular it rejects every
string whose length is not 17 and every string containing `I`, `O` or `Q`. -/
theorem c3_validate_vin_charclass (s : String) :
    (validate_vin s = true ↔ s.data.length = 17 ∧ ∀ c ∈ s.data, isVinChar c = true) ∧
    (s.data.length ≠ 17 → validate_vin s = false) ∧
    ((∃ c ∈ s.data, c = 'I' ∨ c = 'O' ∨ c = 'Q') → validate_vin s = false) := by
  have he := validate_vin_eq_regex s
  refine ⟨?_, ?_, ?_⟩
  · rw [he]
    simp [vinRegexMatch, List.all_eq_true]
  · intro h
    rw [he]
    unfold vinRegexMatch
    rw [decide_eq_false h, Bool.false_and]
  · rintro ⟨c, hc, hor⟩
    have hv : isVinChar c = false := by rcases hor with rfl | rfl | rfl <;> decide
    have hall : s.data.all isVinChar = false := by
      rw [Bool.eq_false_iff]
      intro hcontra
      rw [List.all_eq_true] at hcontra
      have := hcontra c hc
      rw [hv] at this
      exact Bool.false_ne_true this
    rw [he]
    unfold vinRegexMatch
    rw [hall, Bool.and_false]

/-- C3 witness: a well-formed 17-character VIN is accepted; a short string
and a string containing `I` are rejected. -/
theorem c3_validate_vin_charclass_witness :
    validate_vin "JTDBE32K000123456" = true ∧
    validate_vin "ABC" = false ∧
    validate_vin "JTDBE32K00012345I" = false :=
  ⟨(c3_validate_vin_charclass "JTDBE32K000123456").1.mpr ⟨by decide, by decide⟩,
   (c3_validate_vin_charclass "ABC").2.1 (by decide),
   (c3_validate_vin_charclass "JTDBE32K00012345I").2.2 ⟨'I', by decide, Or.inl rfl⟩⟩

/-- C4: the extractor upper-cases and trims its input and tries the patterns
in the fixed source order with the Honda `D` shape first; on
`"D16W73005025"` (which is not an engine-table key) the leftmost `D` pattern
match wins, so the extractor returns `"D16W7"`, and lower-case padded input
gives the same answer. -/
theorem c4_extract_pattern_priority :
    extract_engine_code "D16W73005025" = some "D16W7" ∧
    extract_engine_code "  d16w73005025  " = some "D16W7" ∧
    alookup engine_database "D16W73005025" = none ∧
    (∀ (s : String) (m : List Char),
       reSearch (hondaMatchAt 'D') (cleanInput s) = some m →
       extract_engine_code s = some (String.mk m)) := by
  refine ⟨by decide, by decide, by decide, ?_⟩
  intro s m h
  simp [extract_engine_code, extract_engine_code_db, allPatterns, tryPatterns, h]

/-- C4 witness: the Honda `D` pattern matches `"D16W73005025"` with
`"D16W7"`, and the extractor returns exactly that match. -/
theorem c4_extract_pattern_priority_witness :
    reSearch (hondaMatchAt 'D') (cleanInput "D16W73005025") =
      some ['D', '1', '6', 'W', '7'] ∧
    extract_engine_code "D16W73005025" = some (String.mk ['D', '1', '6', 'W', '7']) :=
  ⟨by decide,
   c4_extract_pattern_priority.2.2.2 "D16W73005025" ['D', '1', '6', 'W', '7'] (by decide)⟩

/-- C5: when no pattern matches the cleaned input, the extractor returns the
cleaned input exactly when it is a verbatim key of the static engine table
and no match otherwise; and `extract("D16W7") = "D16W7"`. -/
theorem c5_extract_table_fallback :
    (∀ s : String, tryPatterns allPatterns (cleanInput s) = none →
       extract_engine_code s =
         (if (alookup engine_database (String.mk (cleanInput s))).isSome then
            some (String.mk (cleanInput s))
          else none)) ∧
    extract_engine_code "D16W7" = some "D16W7" := by
  refine ⟨?_, by decide⟩
  intro s h
  simp [extract_engine_code, extract_engine_code_db, h]

/-- C5 witness: on `"XYZ"` no pattern matches, it is not a table key, and the
extractor reports no match. -/
theorem c5_extract_table_fallback_witness :
    tryPatterns allPatterns (cleanInput "XYZ") = none ∧
    extract_engine_code "XYZ" =
      (if (alookup engine_database (String.mk (cleanInput "XYZ"))).isSome then
         some (String.mk (cleanInput "XYZ"))
       else none) :=
  ⟨by decide, c5_extract_table_fallback.1 "XYZ" (by decide)⟩

/-- C2: enrichment returns the catalog entry as-is on a three-level hit (for
TOYOTA/CAMRY/2005 it contains category `engine_parts` with part number
`17801-0P010`); on a miss at any level it returns the generic placeholder
catalog with exactly the categories `engine` and `brakes`, every part having
part number `Generic`, brand `Various`, and compatibility notes interpolated
with the vehicle's year, make and model (for TOYOTA/CAMRY/1999 the year-level
miss produces exactly that fallback). -/
theorem c2_parts_enrichment :
    ((alookup (get_enhanced_parts "TOYOTA" "CAMRY" "2005" "") "engine_parts").map
       (fun g => (groupParts g).any (fun p => p.part_number = "17801-0P010"))) = some true ∧
    (get_enhanced_parts "TOYOTA" "CAMRY" "1999" "").map Prod.fst = ["engine", "brakes"] ∧
    (∀ make model year engine : String, lookup3 make model year = [] →
       get_enhanced_parts make model year engine =
         get_basic_parts_fallback make model year engine ∧
       (get_enhanced_parts make model year engine).map Prod.fst = ["engine", "brakes"] ∧
       ∀ p ∈ catalogParts (get_enhanced_parts make model year engine),
         p.part_number = "Generic" ∧ p.brand = "Various" ∧
         p.compatibility_notes = "Fits " ++ year ++ " " ++ make ++ " " ++ model) ∧
    (∀ make model year engine : String, lookup3 make model year ≠ [] →
       get_enhanced_parts make model year engine = lookup3 make model year) := by
  refine ⟨by decide, by decide, ?_, ?_⟩
  · intro make model year engine h
    unfold lookup3 at h
    have hg : get_enhanced_parts make model year engine =
        get_basic_parts_fallback make model year engine := by
      unfold get_enhanced_parts get_enhanced_parts_db
      rw [h]
      rfl
    refine ⟨hg, ?_, ?_⟩
    · rw [hg]
      rfl
    · rw [hg]
      intro p hp
      simp [get_basic_parts_fallback, catalogParts, groupParts] at hp
      rcases hp with rfl | rfl | rfl | rfl | rfl <;> exact ⟨rfl, rfl, rfl⟩
  · intro make model year engine h
    unfold lookup3 at h ⊢
    unfold get_enhanced_parts get_enhanced_parts_db
    rw [if_neg]
    intro hcontra
    exact h (List.isEmpty_iff.mp hcontra)

/-- C2 witness: a make-level miss (NISSAN/SENTRA/1999) produces the generic
fallback with exactly the categories `engine` and `brakes`. -/
theorem c2_parts_enrichment_witness :
    lookup3 "NISSAN" "SENTRA" "1999" = [] ∧
    (get_enhanced_parts "NISSAN" "SENTRA" "1999" "").map Prod.fst = ["engine", "brakes"] :=
  ⟨by decide,
   (c2_parts_enrichment.2.2.1 "NISSAN" "SENTRA" "1999" "" (by decide)).2.1⟩

/-- C6 counterexample: on `"not-a-real-code"` the universal search does
reject with `success = false`, but via the VIN branch: the error message is
`"Could not decode VIN: not-a-real-code"`, which does not contain
`"not found"`, and the suggestion is the VIN-length hint, not a list of
example engine codes; this holds for every network oracle since validation
fails before any network call. -/
theorem c6_counterexample :
    (search (fun _ => (none : Option Unit)) "not-a-real-code").success = false ∧
    (search (fun _ => (none : Option Unit)) "not-a-real-code").error =
      some "Could not decode VIN: not-a-real-code" ∧
    strContains "Could not decode VIN: not-a-real-code" "not found" = false ∧
    (search (fun _ => (none : Option Unit)) "not-a-real-code").suggestion =
      some "Ensure VIN is exactly 17 characters" := by
  refine ⟨by decide, by decide, by decide, by decide⟩

/-- C6 amended: an input recognized neither as an engine code nor as a valid
VIN is rejected with `success = false`, error
`"Could not decode VIN: <input>"` and suggestion
`"Ensure VIN is exactly 17 characters"`; the `"not found"` error with the
engine-code suggestion list is produced only on the engine-code branch. -/
theorem c6_amended_rejection {α : Type} (net : String → Option α) (input : String)
    (h1 : is_engine_code (pyStrip input) = false)
    (h2 : validate_vin (pyStrip input) = false) :
    (search net input).success = false ∧
    (search net input).error = some ("Could not decode VIN: " ++ pyStrip input) ∧
    (search net input).suggestion = some "Ensure VIN is exactly 17 characters" := by
  simp [search, decode_vin, h1, h2]

/-- C6 witness: the amended rejection at input `"not-a-real-code"`. -/
theorem c6_amended_rejection_witness :
    (search (fun _ => (none : Option Unit)) "not-a-real-code").error =
      some ("Could not decode VIN: " ++ pyStrip "not-a-real-code") :=
  (c6_amended_rejection (fun _ => none) "not-a-real-code" (by decide) (by decide)).2.1

/-- C7: an engine code present in the engine table but absent from the
engine-parts table resolves successfully with an empty parts mapping and
`total_parts = 0`; in particular `"1ZZ-FE"` returns its engine profile with
no parts. -/
theorem c7_engine_without_parts :
    (∀ (input code : String) (info : EngineInfo),
       extract_engine_code input = some code →
       alookup engine_database (pyUpper code) = some info →
       alookup engine_parts_database (pyUpper code) = none →
       search_by_engine_code input =
         some { search_type := "engine_code", engine_code := pyUpper code,
                engine_info := mkEngineInfoView info, parts_compatibility := [],
                total_parts := 0, parts_categories := [] }) ∧
    search_by_engine_code "1ZZ-FE" =
      some { search_type := "engine_code", engine_code := "1ZZ-FE",
             engine_info := mkEngineInfoView zz1feInfo, parts_compatibility := [],
             total_parts := 0, parts_categories := [] } := by
  refine ⟨?_, by decide⟩
  intro input code info h1 h2 h3
  unfold extract_engine_code at h1
  simp [search_by_engine_code, search_by_engine_code_db, h1, h2, h3, sumCategoryLengths]

/-- C7 witness: `"2AZ-FE"` is in the engine table, has no parts entry, and
resolves to its profile with zero parts. -/
theorem c7_engine_without_parts_witness :
    search_by_engine_code "2AZ-FE" =
      some { search_type := "engine_code", engine_code := pyUpper "2AZ-FE",
             engine_info := mkEngineInfoView az2feInfo, parts_compatibility := [],
             total_parts := 0, parts_categories := [] } :=
  c7_engine_without_parts.1 "2AZ-FE" "2AZ-FE" az2feInfo (by decide) (by decide) (by decide)

/-- C8: the state-passing embeddings of `search_by_engine_code` and
`get_enhanced_parts` leave the static tables unchanged (the method bodies
only read them), agree with the pure functions on the initial tables, and a
second call on the state left by the first returns the identical result. -/
theorem c8_idempotent_no_mutation :
    (∀ (st : DecoderTables) (input : String), (search_by_engine_codeT st input).2 = st) ∧
    (∀ input : String,
       search_by_engine_codeT initTables input = (search_by_engine_code input, initTables)) ∧
    (∀ input : String,
       (search_by_engine_codeT (search_by_engine_codeT initTables input).2 input).1 =
         (search_by_engine_codeT initTables input).1) ∧
    (∀ (st : VinDecoderTables) (make model year engine : String),
       (get_enhanced_partsT st make model year engine).2 = st) ∧
    (∀ make model year engine : String,
       get_enhanced_partsT initVinTables make model year engine =
         (get_enhanced_parts make model year engine, initVinTables)) ∧
    (∀ make model year engine : String,
       (get_enhanced_partsT (get_enhanced_partsT initVinTables make model year engine).2
           make model year engine).1 =
         (get_enhanced_partsT initVinTables make model year engine).1) :=
  ⟨fun _ _ => rfl, fun _ => rfl, fun _ => rfl,
   fun _ _ _ _ _ => rfl, fun _ _ _ _ => rfl, fun _ _ _ _ => rfl⟩

/-- C9 counterexample: `GET /api/engine/B18C1` (a pattern-shaped code absent
from the engine table) is answered with HTTP status 404, not 200, alongside
`success = false` in the body. -/
theorem c9_counterexample :
    (api_engine_search "B18C1").1.success = false ∧
    (api_engine_search "B18C1").2 = 404 ∧
    (api_engine_search "B18C1").2 ≠ 200 := by
  refine ⟨by decide, by decide, by decide⟩

/-- C9 amended: `POST /search` answers status 200 for every logical outcome
(errors live in the body's `success` flag), but `GET /api/engine/<code>`
answers 200 only on a hit and 404 with `success = false` on a miss. -/
theorem c9_amended_status_codes :
    (∀ (net : String → Option Unit) (raw : String), (universal_search net raw).2 = 200) ∧
    (∀ (code : String) (r : EngineSearchResult),
       search_by_engine_code code = some r →
       api_engine_search code = ({ success := true, engine_data := some r }, 200)) ∧
    (∀ code : String,
       search_by_engine_code code = none →
       api_engine_search code =
         ({ success := false, error := some ("Engine code not found: " ++ code) }, 404)) := by
  refine ⟨?_, ?_, ?_⟩
  · intro net raw
    cases hb : (pyStrip raw).data.isEmpty <;> simp [universal_search, hb]
  · intro code r h
    simp [api_engine_search, h]
  · intro code h
    simp [api_engine_search, h]

/-- C9 witness: the amended statement at the miss `"B18C1"`. -/
theorem c9_amended_status_codes_witness :
    api_engine_search "B18C1" =
      ({ success := false, error := some ("Engine code not found: " ++ "B18C1") }, 404) :=
  c9_amended_status_codes.2.2 "B18C1" (by decide)

/-- C10: every successful engine-code search result has `total_parts` equal
to the sum over the categories of `parts_compatibility` of their part
counts, and `parts_categories` equal to the list of its category keys. -/
theorem c10_result_invariants (input : String) (r : EngineSearchResult)
    (h : search_by_engine_code input = some r) :
    r.total_parts = (r.parts_compatibility.map (fun c => c.2.length)).sum ∧
    r.parts_categories = r.parts_compatibility.map Prod.fst := by
  unfold search_by_engine_code search_by_engine_code_db at h
  split at h
  · exact Option.noConfusion h
  · split at h
    · exact Option.noConfusion h
    · cases Option.some.inj h
      refine ⟨?_, rfl⟩
      show sumCategoryLengths _ = _
      unfold sumCategoryLengths
      rw [foldl_add_eq_sum, Nat.zero_add]

/-- C10 witness: the invariant instantiated at the concrete search
`"D16W7"`, whose result has three categories totalling nine parts. -/
theorem c10_result_invariants_witness :
    ((search_by_engine_code "D16W7").getD emptyEngineResult).total_parts =
      (((search_by_engine_code "D16W7").getD emptyEngineResult).parts_compatibility.map
         (fun c => c.2.length)).sum ∧
    ((search_by_engine_code "D16W7").getD emptyEngineResult).parts_categories =
      ((search_by_engine_code "D16W7").getD emptyEngineResult).parts_compatibility.map
        Prod.fst :=
  c10_result_invariants "D16W7" ((search_by_engine_code "D16W7").getD emptyEngineResult) rfl

end VinDecoder
